import Mathlib

/-
  Verification development for the BlendAI Blender add-on
  (src/BlendAI_openrouter.py, src/openrouter_power.py).

  The Python functions relevant to the claims are shallowly embedded as
  executable Lean definitions.  External collaborators (the `requests`
  HTTP library, the `bpy` host API, `os.walk`) are modelled as explicit
  inputs: an HTTP interaction is a value describing the response or the
  raised exception, the Blender datablock store is a record of finite
  sets of datablock ids, and a directory tree is an inductive value
  whose flattening reproduces `os.walk`'s enumeration order.
-/

namespace BlendAI

/-! ## Python string primitives -/

/-- The backtick character (written via its code point). -/
def tick : Char := Char.ofNat 96

/-- The `#` comment-marker character. -/
def hashChar : Char := Char.ofNat 35

/-- The double-quote character. -/
def dqChar : Char := Char.ofNat 34

/-- The single-quote character. -/
def sqChar : Char := Char.ofNat 39

/-- Characters stripped by Python's `str.strip()` (the ASCII whitespace set). -/
def isPyWhitespace (c : Char) : Bool :=
  c == ' ' || c == '\t' || c == '\n' || c == '\r' || c == Char.ofNat 11 || c == Char.ofNat 12

/-- `str.strip()` on a character list: drop whitespace from both ends. -/
def pyStripList (l : List Char) : List Char :=
  ((l.dropWhile isPyWhitespace).reverse.dropWhile isPyWhitespace).reverse

/-- Embedding of Python `code.strip()`. -/
def pyStrip (s : String) : String := ⟨pyStripList s.data⟩

/-- `pat` occurs at the head of `l` (Python `startswith` on char lists). -/
def listStartsWith : List Char → List Char → Bool
  | [], _ => true
  | _ :: _, [] => false
  | p :: ps, c :: cs => p == c && listStartsWith ps cs

/-- Embedding of Python `s.endswith(pat)`. -/
def pyEndsWith (s pat : String) : Bool :=
  listStartsWith pat.data.reverse s.data.reverse

/-- Embedding of Python `s.startswith("#")`. -/
def startsWithHash (s : String) : Bool :=
  match s.data with
  | [] => false
  | c :: _ => c == hashChar

/-! ## The fenced-code stripper

`get_ai_generated_code` post-processes the completion text with
`re.sub(r'^```[a-zA-Z]*\n|```$', '', code, flags=re.MULTILINE)`
(src/BlendAI_openrouter.py line 107, src/openrouter_power.py line 110).
We embed the regex substitution as a left-to-right scan: at a position
that starts a line, the first alternative `^```[a-zA-Z]*\n` is tried
(three backticks, a run of ASCII letters, then a newline, all removed);
otherwise the second alternative ` ```$ ` is tried (three backticks
standing immediately before a newline or at the end of the text);
otherwise the character is kept and the scan advances one position.
This mirrors Python's regex engine: alternatives are tried in order,
matches never overlap, and scanning resumes at the end of a match. -/

/-- After the opening three backticks: consume `[a-zA-Z]*` then a newline. -/
def skipTag : List Char → Option (List Char)
  | [] => none
  | c :: rest => if c == '\n' then some rest else if c.isAlpha then skipTag rest else none

/-- Try the alternative `^```[a-zA-Z]*\n` at the current position. -/
def matchLead (l : List Char) : Option (List Char) :=
  match l with
  | a :: b :: c :: rest => if a == tick && b == tick && c == tick then skipTag rest else none
  | _ => none

/-- Try the alternative ` ```$ ` (MULTILINE `$`: end of text or before a newline). -/
def matchEnd (l : List Char) : Option (List Char) :=
  match l with
  | a :: b :: c :: rest =>
    if a == tick && b == tick && c == tick && (rest.isEmpty || rest.head? == some '\n') then
      some rest
    else none
  | _ => none

/-- The regex-substitution scan.  `atStart` records whether the current
position is at the start of the text or right after a newline (the
MULTILINE `^` anchor).  Fuel bounds the recursion; `l.length` is enough
because every step consumes at least one character. -/
def scanFenceAux : Nat → Bool → List Char → List Char
  | 0, _, l => l
  | fuel + 1, atStart, l =>
    match (if atStart then matchLead l else none) with
    | some rest => scanFenceAux fuel true rest
    | none =>
      match matchEnd l with
      | some rest => scanFenceAux fuel false rest
      | none =>
        match l with
        | [] => []
        | c :: cs => c :: scanFenceAux fuel (c == '\n') cs

/-- Embedding of the `re.sub` call that removes markdown fence markers. -/
def stripFences (s : String) : String := ⟨scanFenceAux s.data.length true s.data⟩

/-- `l` contains three consecutive backticks somewhere. -/
def hasTriple : List Char → Bool
  | a :: b :: c :: rest => (a == tick && b == tick && c == tick) || hasTriple (b :: c :: rest)
  | _ => false

/-- Python `code[3:-3]` on a char list. -/
def sliceTrim3 (l : List Char) : List Char := (l.take (l.length - 3)).drop 3

/-- Embedding of the triple-quote unwrapping after the fence stripper
(src/BlendAI_openrouter.py lines 110-113). -/
def tripleQuoteStrip (s : String) : String :=
  if listStartsWith [dqChar, dqChar, dqChar] s.data &&
      listStartsWith [dqChar, dqChar, dqChar] s.data.reverse then
    pyStrip ⟨sliceTrim3 s.data⟩
  else if listStartsWith [sqChar, sqChar, sqChar] s.data &&
      listStartsWith [sqChar, sqChar, sqChar] s.data.reverse then
    pyStrip ⟨sliceTrim3 s.data⟩
  else s

/-- The whole success-path post-processing of the completion content:
`.strip()`, then the fence regex, then triple-quote unwrapping. -/
def cleanContent (content : String) : String :=
  tripleQuoteStrip (stripFences (pyStrip content))

/-! ## Completion client (`get_ai_generated_code`)

src/BlendAI_openrouter.py lines 65-121 (identical to
src/openrouter_power.py lines 68-124).  The whole body sits in a
`try/except Exception` block, so every fault inside the block —
`requests.post` transport errors, `response.json()` on a malformed
body, missing keys, logging failures — surfaces as the `raised`
alternative and is converted to a `# Error generating code: ...` line.
A parsed response carries the HTTP status, whether the body has a
`choices` key, the first completion's content, and the body's
`error.message` field if present. -/

structure RespBody where
  hasChoices : Bool
  content : String
  errMessage : Option String

inductive ApiOutcome where
  | response (status : Nat) (body : RespBody)
  | raised (msg : String)

/-- Embedding of `get_ai_generated_code` as a function of the HTTP
interaction.  On HTTP 200 with a `choices` key the content is cleaned
and returned; otherwise the body's `error.message` (default
`Unknown error`) is reported; an exception anywhere in the `try` block
is reported as `# Error generating code: ...`. -/
def get_ai_generated_code (r : ApiOutcome) : String :=
  match r with
  | .raised m => "# Error generating code: " ++ m
  | .response status body =>
    if status == 200 && body.hasChoices then
      cleanContent body.content
    else
      "# Error: " ++ body.errMessage.getD "Unknown error"

/-- The failure modes of `get_ai_generated_code`: a transport exception
or malformed body (the `raised` alternative), or a parsed response that
is not an HTTP 200 carrying a `choices` key. -/
def failureInput : ApiOutcome → Prop
  | .raised _ => True
  | .response status body => (status == 200 && body.hasChoices) = false

/-! ## Script runner (`execute_script_with_retries`)

The generated source is external data with host-dependent behaviour, so
a script is modelled by its text, its parse result, and its execution
result on each attempt (the host scene mutates between attempts, so the
result may vary with the attempt number).  The runner is embedded twice:

* `execute_script_with_retries` — the copy at src/BlendAI_openrouter.py
  lines 123-138 (identical in behaviour to lines 809-829 and to
  src/openrouter_power.py lines 126-141), which catches `SyntaxError`
  before the generic handler and therefore never retries a parse fault;
* `execute_script_with_retries_v2` — the copy at
  src/BlendAI_openrouter.py lines 627-646, which has no `SyntaxError`
  arm: a parse fault falls into the generic `except Exception` handler
  and is retried like a runtime fault.

`RunStats` counts the observable side effects: calls to `compile`,
calls to `exec`, and 500 ms `time.sleep(0.5)` pauses. -/

inductive ParseOutcome where
  | ok
  | fault (msg : String)
  deriving DecidableEq

inductive ExecOutcome where
  | ok
  | fault (msg : String)
  deriving DecidableEq

structure Script where
  text : String
  parseRes : ParseOutcome
  execRes : Nat → ExecOutcome

inductive RunOutcome where
  | noValidCode
  | success
  | parseFaulted (msg : String)
  | runtimeFaulted (msg : String) (attempts : Nat)
  deriving DecidableEq

structure RunStats where
  compileCalls : Nat
  execCalls : Nat
  pauses : Nat
  deriving DecidableEq

/-- The guard at the top of the loop body:
`if not code.strip() or code.strip().startswith("#")`. -/
def noCodeCheck (code : String) : Bool :=
  (pyStrip code).data.isEmpty || startsWithHash (pyStrip code)

/-- The `for attempt in range(1, max_retries + 1)` loop of the variant
with the `SyntaxError` arm.  `fuel` is the number of iterations the
`range` still has; a fall-through exit of the loop returns Python
`None`, modelled as `none`. -/
def runLoopA (s : Script) (maxRetries : Nat) :
    Nat → Nat → RunStats → Option RunOutcome × RunStats
  | 0, _, st => (none, st)
  | fuel + 1, attempt, st =>
    if noCodeCheck s.text then
      (some .noValidCode, st)
    else
      let st1 : RunStats := ⟨st.compileCalls + 1, st.execCalls, st.pauses⟩
      match s.parseRes with
      | .fault m => (some (.parseFaulted m), st1)
      | .ok =>
        let st2 : RunStats := ⟨st1.compileCalls, st1.execCalls + 1, st1.pauses⟩
        match s.execRes attempt with
        | .ok => (some .success, st2)
        | .fault m =>
          if attempt < maxRetries then
            runLoopA s maxRetries fuel (attempt + 1) ⟨st2.compileCalls, st2.execCalls, st2.pauses + 1⟩
          else
            (some (.runtimeFaulted m maxRetries), st2)

/-- Embedding of `execute_script_with_retries` (the variant that
returns `# Syntax Error: ...` from a dedicated `except SyntaxError`
arm, src/BlendAI_openrouter.py lines 123-138). -/
def execute_script_with_retries (s : Script) (maxRetries : Nat) :
    Option RunOutcome × RunStats :=
  runLoopA s maxRetries maxRetries 1 ⟨0, 0, 0⟩

/-- The loop of the variant WITHOUT the `SyntaxError` arm
(src/BlendAI_openrouter.py lines 627-646): a parse fault is caught by
the generic `except Exception` handler, so when attempts remain it
sleeps and retries, and on exhaustion it returns the generic
`# Error executing script after N attempts: ...` outcome. -/
def runLoopB (s : Script) (maxRetries : Nat) :
    Nat → Nat → RunStats → Option RunOutcome × RunStats
  | 0, _, st => (none, st)
  | fuel + 1, attempt, st =>
    if noCodeCheck s.text then
      (some .noValidCode, st)
    else
      let st1 : RunStats := ⟨st.compileCalls + 1, st.execCalls, st.pauses⟩
      match s.parseRes with
      | .fault m =>
        if attempt < maxRetries then
          runLoopB s maxRetries fuel (attempt + 1) ⟨st1.compileCalls, st1.execCalls, st1.pauses + 1⟩
        else
          (some (.runtimeFaulted m maxRetries), st1)
      | .ok =>
        let st2 : RunStats := ⟨st1.compileCalls, st1.execCalls + 1, st1.pauses⟩
        match s.execRes attempt with
        | .ok => (some .success, st2)
        | .fault m =>
          if attempt < maxRetries then
            runLoopB s maxRetries fuel (attempt + 1) ⟨st2.compileCalls, st2.execCalls, st2.pauses + 1⟩
          else
            (some (.runtimeFaulted m maxRetries), st2)

/-- Embedding of the `execute_script_with_retries` copy at
src/BlendAI_openrouter.py lines 627-646 (no `SyntaxError` arm). -/
def execute_script_with_retries_v2 (s : Script) (maxRetries : Nat) :
    Option RunOutcome × RunStats :=
  runLoopB s maxRetries maxRetries 1 ⟨0, 0, 0⟩

/-! ## Asset importer (`append_from_library`)

src/openrouter_power.py lines 187-223.  The Blender datablock store
(`bpy.data`) is modelled as finite sets of datablock ids together with
a fresh-id counter: `bpy.data.libraries.load` materialises each loaded
datablock as a brand-new datablock (Blender renames on clash), modelled
by allocating ids from the counter.  `sceneLinks` models the ids linked
into `bpy.context.collection`.  The function snapshots the three
collections, conditionally performs the three loads, and diffs the
post-state against the snapshot; the third component of the result
counts the `bpy.data.libraries.load` invocations. -/

structure ImportSummary where
  objects : Nat
  materials : Nat
  textures : Nat
  deriving DecidableEq

structure HostState where
  nextId : Nat
  objects : Finset Nat
  materials : Finset Nat
  textures : Finset Nat
  sceneLinks : Finset Nat
  deriving DecidableEq

structure BlendContainer where
  nObjects : Nat
  nMaterials : Nat
  nTextures : Nat
  deriving DecidableEq

/-- `k` fresh datablock ids allocated from `start`. -/
def freshIds (start k : Nat) : Finset Nat :=
  (Finset.range k).image (fun i => start + i)

/-- Well-formedness of the host store: every existing id is below the
fresh-id counter. -/
def HostState.wf (h : HostState) : Prop :=
  (∀ i ∈ h.objects, i < h.nextId) ∧
  (∀ i ∈ h.materials, i < h.nextId) ∧
  (∀ i ∈ h.textures, i < h.nextId)

/-- The `if objects:` block: load the container's objects and link each
loaded object into the active collection. -/
def loadObjects (host : HostState) (k : Nat) : HostState :=
  { host with
    objects := host.objects ∪ freshIds host.nextId k
    sceneLinks := host.sceneLinks ∪ freshIds host.nextId k
    nextId := host.nextId + k }

/-- The `if materials:` block. -/
def loadMaterials (host : HostState) (k : Nat) : HostState :=
  { host with
    materials := host.materials ∪ freshIds host.nextId k
    nextId := host.nextId + k }

/-- The `if textures:` block. -/
def loadTextures (host : HostState) (k : Nat) : HostState :=
  { host with
    textures := host.textures ∪ freshIds host.nextId k
    nextId := host.nextId + k }

/-- Embedding of `append_from_library`.  Returns the summary computed
by diffing the post-state collections against the snapshots, the new
host state, and the number of library-load invocations performed. -/
def append_from_library (host : HostState) (c : BlendContainer)
    (objects materials textures : Bool) : ImportSummary × HostState × Nat :=
  let h1 := if objects then loadObjects host c.nObjects else host
  let h2 := if materials then loadMaterials h1 c.nMaterials else h1
  let h3 := if textures then loadTextures h2 c.nTextures else h2
  let loads := (if objects then 1 else 0) + (if materials then 1 else 0) +
    (if textures then 1 else 0)
  (⟨(h3.objects \ host.objects).card,
    (h3.materials \ host.materials).card,
    (h3.textures \ host.textures).card⟩, h3, loads)

/-! ## The import operator (`ImportSelectedBlendOperator.execute`)

src/openrouter_power.py lines 361-400.  The scene state carries the
fetched file list, the per-scene entry collection, the selected index
and the three import flags; `lib` maps a container path to its
contents. -/

inductive OpResult where
  | finished
  | cancelled
  deriving DecidableEq

structure ImportSceneState where
  ai_blend_files : List String
  ai_blend_enum : List String
  ai_selected_blend_file : Nat
  ai_import_objects : Bool
  ai_import_materials : Bool
  ai_import_textures : Bool

/-- Embedding of `ImportSelectedBlendOperator.execute`: guard on an
empty fetched-file list, guard on an out-of-range selected index, then
append from the selected container and report the summary string. -/
def importSelectedBlend (sc : ImportSceneState) (host : HostState)
    (lib : String → BlendContainer) : String × OpResult × HostState :=
  if sc.ai_blend_files.isEmpty then
    ("No .blend files available. Fetch files first.", .cancelled, host)
  else if sc.ai_blend_enum.length ≤ sc.ai_selected_blend_file then
    ("Invalid selection", .cancelled, host)
  else
    let path := sc.ai_blend_enum.getD sc.ai_selected_blend_file ""
    let r := append_from_library host (lib path) sc.ai_import_objects
      sc.ai_import_materials sc.ai_import_textures
    ("Imported: " ++ toString r.1.objects ++ " objects, " ++ toString r.1.materials ++
      " materials, " ++ toString r.1.textures ++ " textures", .finished, r.2.1)

/-! ## Online asset fetch (`import_online_asset`)

src/BlendAI_openrouter.py lines 304-322.  The network is modelled as
the outcome the `requests.get` interaction would have; the second
component of the result counts how many network requests were issued. -/

inductive DownloadOutcome where
  | ok
  | httpFail (status : Nat)
  | exn (msg : String)

/-- Embedding of `import_online_asset`: reject a URL that does not end
in `.blend` before any network activity, otherwise issue the download
and report success, an HTTP failure line, or the caught exception. -/
def import_online_asset (url : String) (net : DownloadOutcome) : String × Nat :=
  if pyEndsWith url ".blend" then
    match net with
    | .ok => ("Asset imported successfully.", 1)
    | .httpFail status => ("# Error: Failed to download the file. HTTP " ++ toString status, 1)
    | .exn m => ("# Error importing asset: " ++ m, 1)
  else
    ("# Error: Only .blend files can be imported.", 0)

/-! ## Archive scanner (`find_blend_files`)

src/openrouter_power.py lines 178-185.  A directory tree is encoded
first-child/next-sibling: `DirT.node name files children sibs` is a
subdirectory `name` holding `files` and `children`, followed by its
sibling directories `sibs`.  Flattening a node yields its own files,
then its subtree, then its siblings — exactly the top-down enumeration
order of `os.walk`.  The walked root directory itself is given by its
path, its files and its child forest. -/

inductive DirT where
  | nil
  | node (name : String) (files : List String) (children : DirT) (sibs : DirT)

def pathJoin (root f : String) : String := root ++ "/" ++ f

/-- The `.blend`-collecting walk below a directory at path `root`. -/
def findB (root : String) : DirT → List String
  | .nil => []
  | .node name files children sibs =>
    (files.filter fun f => pyEndsWith f ".blend").map (fun f => pathJoin (pathJoin root name) f) ++
      findB (pathJoin root name) children ++ findB root sibs

/-- Embedding of `find_blend_files`: every file found by the walk whose
name ends in `.blend`, path-joined to the directory it sits in, in walk
order. -/
def find_blend_files (directory : String) (files : List String) (children : DirT) :
    List String :=
  (files.filter fun f => pyEndsWith f ".blend").map (fun f => pathJoin directory f) ++
    findB directory children

/-- All `(containing directory, file name)` pairs enumerated by
`os.walk` below a directory at path `root`. -/
def walkB (root : String) : DirT → List (String × String)
  | .nil => []
  | .node name files children sibs =>
    files.map (fun f => (pathJoin root name, f)) ++
      walkB (pathJoin root name) children ++ walkB root sibs

/-- All `(containing directory, file name)` pairs of the walked tree. -/
def walkAll (directory : String) (files : List String) (children : DirT) :
    List (String × String) :=
  files.map (fun f => (directory, f)) ++ walkB directory children

/-! # Theorems -/

/-! ## Script runner: C6, C3, C2 -/

/-- C6: for every input text that is empty after trimming or whose
trimmed form begins with the comment marker `#`, the runner returns the
"no valid code" outcome, with the compiler and the executor invoked
zero times (and no back-off pause).  `max_retries ≥ 1` is the claim's
standing assumption (the source's default is 3); with zero attempts the
`for` loop body never runs. -/
theorem C6_no_valid_code_short_circuit (s : Script) (maxRetries : Nat)
    (hmax : 1 ≤ maxRetries)
    (h : pyStrip s.text = "" ∨ startsWithHash (pyStrip s.text) = true) :
    execute_script_with_retries s maxRetries = (some .noValidCode, ⟨0, 0, 0⟩) := by
  have hc : noCodeCheck s.text = true := by
    unfold noCodeCheck
    rcases h with h | h
    · have : (pyStrip s.text).data = [] := by rw [h]
      simp [this]
    · simp [h]
  obtain ⟨k, rfl⟩ : ∃ k, maxRetries = k + 1 :=
    ⟨maxRetries - 1, by omega⟩
  simp [execute_script_with_retries, runLoopA, hc]

/-- C6 witness: a comment-only script with the default ceiling. -/
theorem C6_witness :
    execute_script_with_retries ⟨"# just a comment", .ok, fun _ => .ok⟩ 3 =
      (some .noValidCode, ⟨0, 0, 0⟩) :=
  C6_no_valid_code_short_circuit ⟨"# just a comment", .ok, fun _ => .ok⟩ 3
    (by decide) (Or.inr (by decide))

/-- The exhausting run of the retry loop: starting at iteration
`attempt` with `fuel` iterations left (`attempt + fuel = maxRetries + 1`),
a script that parses but faults on every execution drives the loop to
exhaustion, adding one compile and one exec per iteration and one pause
per non-final iteration. -/
theorem runLoopA_exhaust (s : Script) (msg : String) (maxRetries : Nat)
    (hvalid : noCodeCheck s.text = false) (hparse : s.parseRes = .ok)
    (hexec : ∀ n, s.execRes n = .fault msg) :
    ∀ fuel attempt st, attempt + fuel = maxRetries + 1 → 1 ≤ fuel →
      runLoopA s maxRetries fuel attempt st =
        (some (.runtimeFaulted msg maxRetries),
          ⟨st.compileCalls + fuel, st.execCalls + fuel, st.pauses + (fuel - 1)⟩) := by
  intro fuel
  induction fuel with
  | zero => intro attempt st _ h1; omega
  | succ f ih =>
    intro attempt st hsum _
    by_cases hf : 1 ≤ f
    · have hlt : attempt < maxRetries := by omega
      simp only [runLoopA, hvalid, hparse, hexec, Bool.false_eq_true, if_false, hlt, if_true]
      rw [ih (attempt + 1) _ (by omega) hf]
      refine congrArg _ ?_
      simp only [RunStats.mk.injEq]
      omega
    · have hf0 : f = 0 := by omega
      subst hf0
      have hge : ¬ attempt < maxRetries := by omega
      have hm : maxRetries = attempt := by omega
      simp only [runLoopA, hvalid, hparse, hexec, Bool.false_eq_true, if_false, hge]
      simp

/-- C3: a source that parses but raises the same runtime fault on every
execution attempt is compiled and executed exactly `max_attempts` times
(the same unmodified script value on each attempt), with a 500 ms pause
between consecutive attempts (`max_attempts - 1` pauses), and the run
returns the `# Error executing the script after N attempts` outcome
carrying the last fault's message and `attempts = max_attempts`. -/
theorem C3_runtime_fault_retries (s : Script) (msg : String) (maxAttempts : Nat)
    (hmax : 1 ≤ maxAttempts)
    (hvalid : noCodeCheck s.text = false) (hparse : s.parseRes = .ok)
    (hexec : ∀ n, s.execRes n = .fault msg) :
    execute_script_with_retries s maxAttempts =
      (some (.runtimeFaulted msg maxAttempts),
        ⟨maxAttempts, maxAttempts, maxAttempts - 1⟩) := by
  unfold execute_script_with_retries
  rw [runLoopA_exhaust s msg maxAttempts hvalid hparse hexec maxAttempts 1 ⟨0, 0, 0⟩
    (by omega) hmax]
  simp

/-- C3 witness: a failing division retried with the default ceiling 3:
three compiles, three executions, two pauses, and the terminal outcome
carries the message and attempt count 3. -/
theorem C3_witness :
    execute_script_with_retries ⟨"1/0", .ok, fun _ => .fault "division by zero"⟩ 3 =
      (some (.runtimeFaulted "division by zero" 3), ⟨3, 3, 2⟩) :=
  C3_runtime_fault_retries ⟨"1/0", .ok, fun _ => .fault "division by zero"⟩
    "division by zero" 3 (by decide) (by decide) rfl (fun _ => rfl)

/-- A source text whose parse fails: unparsable, non-empty, not a
comment line. -/
def badParseScript : Script :=
  ⟨"def f(:", .fault "invalid syntax", fun _ => .ok⟩

/-- C2 (code bug): on a source whose parse fails, the
`execute_script_with_retries` copy with the `SyntaxError` arm
(src/BlendAI_openrouter.py lines 123-138) behaves as the claim states —
the `# Syntax Error` outcome on the first attempt, exactly one compile
call, no execution, no retry — but the copy at lines 627-646, which the
claim also cites, lacks the `SyntaxError` arm: the parse fault falls
into the generic handler, the same text is re-compiled three times with
two back-off pauses, and the generic after-3-attempts outcome is
returned.  The spec states (with rationale) that a parse fault is never
retried, so the lines 627-646 copy is the slip. -/
theorem C2_code_bug_eval :
    execute_script_with_retries badParseScript 3 =
      (some (.parseFaulted "invalid syntax"), ⟨1, 0, 0⟩) ∧
    execute_script_with_retries_v2 badParseScript 3 =
      (some (.runtimeFaulted "invalid syntax" 3), ⟨3, 0, 2⟩) := by
  constructor <;> decide

/-! ## Completion client: C5 -/

/-- C5: on every failure mode — a non-200 HTTP status, a response body
without a `choices` key, a malformed body or transport fault raising
inside the `try` block — `get_ai_generated_code` returns a text line
prefixed with the comment marker `#` (and, being a total function of
the interaction, raises nothing past this boundary). -/
theorem C5_failures_tagged (r : ApiOutcome) (h : failureInput r) :
    startsWithHash (get_ai_generated_code r) = true := by
  cases r with
  | raised m => rfl
  | response status body =>
    have hc : (status == 200 && body.hasChoices) = false := h
    simp only [get_ai_generated_code, hc, Bool.false_eq_true, if_false]
    cases body.errMessage <;> rfl

/-- C5 witness: an HTTP 503 response with an `error.message` body. -/
theorem C5_witness :
    startsWithHash (get_ai_generated_code
      (.response 503 ⟨false, "", some "overloaded"⟩)) = true :=
  C5_failures_tagged (.response 503 ⟨false, "", some "overloaded"⟩) rfl

/-! ## Online asset fetch: C9 -/

/-- C9: a URL whose suffix is not `.blend` is rejected with the tagged
error line before any network request is issued (the request counter of
the result is 0), for every possible network behaviour. -/
theorem C9_rejects_non_blend_url (url : String) (net : DownloadOutcome)
    (h : pyEndsWith url ".blend" = false) :
    import_online_asset url net = ("# Error: Only .blend files can be imported.", 0) := by
  unfold import_online_asset
  rw [h]
  simp

/-- C9 witness: a `.zip` URL with a network that would succeed. -/
theorem C9_witness :
    import_online_asset "http://example.com/asset.zip" .ok =
      ("# Error: Only .blend files can be imported.", 0) :=
  C9_rejects_non_blend_url "http://example.com/asset.zip" .ok (by decide)

/-! ## Import operator: C7 -/

/-- C7: whenever the selected ordinal index is at least the length of
the discovered container list, the import operator cancels without
touching the host state — the status is one of the two error lines
(which one depends on whether any files were fetched at all), the
operator result is `CANCELLED`, and no append is performed; the index
is never clamped to a valid entry. -/
theorem C7_out_of_range_index_rejected (sc : ImportSceneState) (host : HostState)
    (lib : String → BlendContainer)
    (hidx : sc.ai_blend_enum.length ≤ sc.ai_selected_blend_file) :
    (importSelectedBlend sc host lib).2.1 = .cancelled ∧
    (importSelectedBlend sc host lib).2.2 = host ∧
    ((importSelectedBlend sc host lib).1 = "Invalid selection" ∨
      (importSelectedBlend sc host lib).1 = "No .blend files available. Fetch files first.") := by
  unfold importSelectedBlend
  by_cases hf : sc.ai_blend_files.isEmpty
  · simp [hf]
  · simp [hf, hidx]

/-- An empty Blender datablock store. -/
def emptyHost : HostState := ⟨0, ∅, ∅, ∅, ∅⟩

/-- C7 witness: one discovered container, selected index 1 (equal to
the list length): the operator cancels with `Invalid selection` and the
host is untouched. -/
theorem C7_witness :
    (importSelectedBlend ⟨["r/x.blend"], ["r/x.blend"], 1, true, true, true⟩ emptyHost
        (fun _ => ⟨1, 1, 1⟩)).2.1 = OpResult.cancelled ∧
    (importSelectedBlend ⟨["r/x.blend"], ["r/x.blend"], 1, true, true, true⟩ emptyHost
        (fun _ => ⟨1, 1, 1⟩)).2.2 = emptyHost ∧
    ((importSelectedBlend ⟨["r/x.blend"], ["r/x.blend"], 1, true, true, true⟩ emptyHost
        (fun _ => ⟨1, 1, 1⟩)).1 = "Invalid selection" ∨
      (importSelectedBlend ⟨["r/x.blend"], ["r/x.blend"], 1, true, true, true⟩ emptyHost
        (fun _ => ⟨1, 1, 1⟩)).1 = "No .blend files available. Fetch files first.") :=
  C7_out_of_range_index_rejected ⟨["r/x.blend"], ["r/x.blend"], 1, true, true, true⟩
    emptyHost (fun _ => ⟨1, 1, 1⟩) (by decide)

/-! ## Asset importer: C4 and C10 -/

/-- Allocating `k` fresh ids yields `k` distinct datablocks. -/
theorem freshIds_card (s k : Nat) : (freshIds s k).card = k := by
  unfold freshIds
  rw [Finset.card_image_of_injective _
    (by intro a b hab; dsimp only [] at hab; omega : Function.Injective fun i => s + i)]
  exact Finset.card_range k

/-- Diffing a collection against its snapshot after a union with fresh
ids counts exactly the fresh ids, provided every pre-existing id lies
below the allocation start. -/
theorem card_new (A : Finset ℕ) (s k : Nat) (h : ∀ i ∈ A, i < s) :
    ((A ∪ freshIds s k) \ A).card = k := by
  have hd : Disjoint A (freshIds s k) := by
    rw [Finset.disjoint_left]
    intro a ha hfa
    have h1 := h a ha
    simp only [freshIds, Finset.mem_image, Finset.mem_range] at hfa
    obtain ⟨j, hj, rfl⟩ := hfa
    omega
  rw [Finset.union_sdiff_cancel_left hd, freshIds_card]

/-- C4: for every well-formed host store, container and flag
combination, the summary returned by `append_from_library` — computed
by diffing the global object/material/texture collections against the
pre-merge snapshot — equals the number of entries actually merged per
requested category: the container's count when the category's flag is
set (0 entries give 0, not an error) and 0 when it is not. -/
theorem C4_append_counts (host : HostState) (c : BlendContainer) (o m t : Bool)
    (hwf : host.wf) :
    (append_from_library host c o m t).1 =
      ⟨if o then c.nObjects else 0, if m then c.nMaterials else 0,
        if t then c.nTextures else 0⟩ := by
  obtain ⟨hwO, hwM, hwT⟩ := hwf
  cases o <;> cases m <;> cases t <;>
    simp only [append_from_library, loadObjects, loadMaterials, loadTextures,
      Bool.false_eq_true, if_false, if_true, ImportSummary.mk.injEq] <;>
    refine ⟨?_, ?_, ?_⟩ <;>
    first
      | simp [Finset.sdiff_self]
      | exact card_new _ _ _ (fun i hi => by have h1 := hwO i hi; omega)
      | exact card_new _ _ _ (fun i hi => by have h1 := hwM i hi; omega)
      | exact card_new _ _ _ (fun i hi => by have h1 := hwT i hi; omega)

/-- C4 witness: the spec's end-to-end scenario — a container with 2
objects, 0 materials and 1 texture, all three flags set — yields the
summary `(2, 0, 1)`. -/
theorem C4_witness :
    (append_from_library emptyHost ⟨2, 0, 1⟩ true true true).1 = ⟨2, 0, 1⟩ := by
  have h := C4_append_counts emptyHost ⟨2, 0, 1⟩ true true true
    ⟨fun i hi => absurd hi (Finset.not_mem_empty i),
     fun i hi => absurd hi (Finset.not_mem_empty i),
     fun i hi => absurd hi (Finset.not_mem_empty i)⟩
  simpa using h

/-- C10: with all three category flags false, `append_from_library`
performs no library load (load counter 0), returns the all-zero
summary, and leaves the host's object, material and texture
collections — indeed the whole host state — unchanged. -/
theorem C10_all_flags_false_noop (host : HostState) (c : BlendContainer) :
    append_from_library host c false false false = (⟨0, 0, 0⟩, host, 0) := by
  simp [append_from_library]

/-! ## Archive scanner: C8 -/

/-- Completeness of the walk below a directory: every `.blend` file
`f` enumerated by `os.walk` in some directory `d` of the subtree
contributes `os.path.join(d, f)` to the collected list. -/
theorem walkB_complete (d f : String) (hb : pyEndsWith f ".blend" = true) :
    ∀ (tr : DirT) (root : String), (d, f) ∈ walkB root tr → pathJoin d f ∈ findB root tr := by
  intro tr
  induction tr with
  | nil =>
    intro root h
    simp [walkB] at h
  | node name files children sibs ihc ihs =>
    intro root h
    simp only [walkB, List.mem_append, List.mem_map] at h
    simp only [findB, List.mem_append]
    rcases h with (⟨g, hg, heq⟩ | h) | h
    · injection heq with h1 h2
      subst h1
      subst h2
      exact Or.inl (Or.inl (List.mem_map.mpr ⟨g, List.mem_filter.mpr ⟨hg, hb⟩, rfl⟩))
    · exact Or.inl (Or.inr (ihc _ h))
    · exact Or.inr (ihs _ h)

/-- C8: `find_blend_files` returns every file whose name ends in
`.blend`, at any nesting depth of the walked tree — each
`(directory, file)` pair that `os.walk` enumerates and whose file name
has the `.blend` extension appears (path-joined) in the returned list.
The returned order is determined by the tree value alone
(`find_blend_files` is a pure function of the walked tree, which fixes
the walk's enumeration order), hence deterministic for a fixed tree. -/
theorem C8_find_blend_files_complete (directory d f : String) (files : List String)
    (children : DirT) (h : (d, f) ∈ walkAll directory files children)
    (hb : pyEndsWith f ".blend" = true) :
    pathJoin d f ∈ find_blend_files directory files children := by
  simp only [walkAll, List.mem_append, List.mem_map] at h
  simp only [find_blend_files, List.mem_append]
  rcases h with ⟨g, hg, heq⟩ | h
  · injection heq with h1 h2
    subst h1
    subst h2
    exact Or.inl (List.mem_map.mpr ⟨g, List.mem_filter.mpr ⟨hg, hb⟩, rfl⟩)
  · exact Or.inr (walkB_complete d f hb children directory h)

/-- A demo subtree: `s1/` holds `b.blend` and a nested `s1/s2/` holds
`c.blend`. -/
def demoChildren : DirT :=
  .node "s1" ["b.blend"] (.node "s2" ["c.blend"] .nil .nil) .nil

/-- C8 witness: containers at depth 0 (`a.blend`), depth 1
(`s1/b.blend`) and depth 2 (`s1/s2/c.blend`) are all returned. -/
theorem C8_witness :
    pathJoin "repo" "a.blend" ∈
        find_blend_files "repo" ["a.blend", "notes.txt"] demoChildren ∧
    pathJoin (pathJoin "repo" "s1") "b.blend" ∈
        find_blend_files "repo" ["a.blend", "notes.txt"] demoChildren ∧
    pathJoin (pathJoin (pathJoin "repo" "s1") "s2") "c.blend" ∈
        find_blend_files "repo" ["a.blend", "notes.txt"] demoChildren :=
  ⟨C8_find_blend_files_complete "repo" "repo" "a.blend" ["a.blend", "notes.txt"]
      demoChildren (by decide) (by decide),
   C8_find_blend_files_complete "repo" (pathJoin "repo" "s1") "b.blend"
      ["a.blend", "notes.txt"] demoChildren (by decide) (by decide),
   C8_find_blend_files_complete "repo" (pathJoin (pathJoin "repo" "s1") "s2") "c.blend"
      ["a.blend", "notes.txt"] demoChildren (by decide) (by decide)⟩

/-! ## Completion client fence stripping: C1 -/

theorem scanFenceAux_nil (fuel : Nat) (b : Bool) : scanFenceAux fuel b [] = [] := by
  cases fuel <;> cases b <;> rfl

theorem hasTriple_tail (c : Char) (cs : List Char) (h : hasTriple (c :: cs) = false) :
    hasTriple cs = false := by
  match cs with
  | [] => rfl
  | [x] => rfl
  | x :: y :: rest =>
    simp only [hasTriple, Bool.or_eq_false_iff] at h
    exact h.2

/-- A text with no three consecutive backticks matches neither regex
alternative at its head. -/
theorem matchers_none_of_noTriple (l : List Char) (h : hasTriple l = false) :
    matchLead l = none ∧ matchEnd l = none := by
  match l with
  | [] => exact ⟨rfl, rfl⟩
  | [a] => exact ⟨rfl, rfl⟩
  | [a, b] => exact ⟨rfl, rfl⟩
  | a :: b :: c :: rest =>
    have hg : (a == tick && b == tick && c == tick) = false := by
      simp only [hasTriple, Bool.or_eq_false_iff] at h
      exact h.1
    constructor
    · simp [matchLead, hg]
    · simp [matchEnd, hg]

/-- On a text with no fence marker the substitution scan is the
identity. -/
theorem scanFenceAux_noTriple (l : List Char) :
    ∀ (fuel : Nat) (b : Bool), l.length ≤ fuel → hasTriple l = false →
      scanFenceAux fuel b l = l := by
  induction l with
  | nil => intro fuel b _ _; exact scanFenceAux_nil fuel b
  | cons c cs ih =>
    intro fuel b hlen h
    obtain ⟨f, rfl⟩ : ∃ f, fuel = f + 1 := by
      refine ⟨fuel - 1, ?_⟩
      simp only [List.length_cons] at hlen
      omega
    have hm := matchers_none_of_noTriple (c :: cs) h
    simp only [scanFenceAux, hm.1, hm.2, ite_self]
    rw [ih f (c == '\n') (by simp only [List.length_cons] at hlen; omega) (hasTriple_tail c cs h)]

/-- A purely alphabetic language tag followed by a newline is consumed
by the tag part of the leading-fence alternative. -/
theorem skipTag_alpha (tagL : List Char) (rest : List Char)
    (h : ∀ c ∈ tagL, c.isAlpha = true) :
    skipTag (tagL ++ '\n' :: rest) = some rest := by
  induction tagL with
  | nil => simp [skipTag]
  | cons c cs ih =>
    have hc : c.isAlpha = true := h c (by simp)
    have hne : (c == '\n') = false := by
      cases hbe : c == '\n'
      · rfl
      · have hceq : c = '\n' := by simpa using hbe
        subst hceq
        simp at hc
    simp only [List.cons_append, skipTag, hne, Bool.false_eq_true, if_false, hc, if_true]
    exact ih (fun x hx => h x (by simp [hx]))

/-- Scanning positions inside fence-free text followed by a newline:
neither alternative matches at the head. -/
theorem matchers_none_mid (c : Char) (cs : List Char) (rest : List Char)
    (h : hasTriple (c :: cs) = false) :
    matchLead (c :: (cs ++ '\n' :: rest)) = none ∧
    matchEnd (c :: (cs ++ '\n' :: rest)) = none := by
  have hnl : (('\n' : Char) == tick) = false := by decide
  match cs with
  | [] =>
    match rest with
    | [] => exact ⟨rfl, rfl⟩
    | r :: rs =>
      constructor
      · simp [matchLead, hnl]
      · simp [matchEnd, hnl]
  | [x] =>
    constructor
    · simp [matchLead, hnl]
    · simp [matchEnd, hnl]
  | x :: y :: zs =>
    have hg : (c == tick && x == tick && y == tick) = false := by
      simp only [hasTriple, Bool.or_eq_false_iff] at h
      exact h.1
    constructor
    · simp [matchLead, hg]
    · simp [matchEnd, hg]

/-- Scanning a fence-free body followed by the closing fence
`\n```$` yields the body and its final newline: the closing fence is
removed by the second alternative. -/
theorem scanFenceAux_body (body : List Char) :
    ∀ (fuel : Nat) (b : Bool), body.length + 4 ≤ fuel → hasTriple body = false →
      scanFenceAux fuel b (body ++ '\n' :: [tick, tick, tick]) = body ++ ['\n'] := by
  induction body with
  | nil =>
    intro fuel b hlen _
    obtain ⟨f, rfl⟩ : ∃ f, fuel = f + 1 := ⟨fuel - 1, by omega⟩
    have h1 : matchLead ('\n' :: [tick, tick, tick]) = none := by decide
    have h2 : matchEnd ('\n' :: [tick, tick, tick]) = none := by decide
    simp only [List.nil_append, scanFenceAux, h1, h2, ite_self]
    obtain ⟨f2, rfl⟩ : ∃ f2, f = f2 + 1 := ⟨f - 1, by omega⟩
    have h3 : matchLead [tick, tick, tick] = none := by decide
    have h4 : matchEnd [tick, tick, tick] = some [] := by decide
    have h5 : (('\n' : Char) == '\n') = true := by decide
    simp only [h5, scanFenceAux, h3, h4, ite_self, scanFenceAux_nil]
  | cons c cs ih =>
    intro fuel b hlen h
    obtain ⟨f, rfl⟩ : ∃ f, fuel = f + 1 := ⟨fuel - 1, by omega⟩
    have hm := matchers_none_mid c cs [tick, tick, tick] h
    simp only [List.cons_append, scanFenceAux, hm.1, hm.2, ite_self]
    rw [ih f (c == '\n') (by simp only [List.length_cons] at hlen; omega)
      (hasTriple_tail c cs h)]

/-- A single fenced block whose opening tag is purely alphabetic and
whose body is fence-free: the scan removes the opening fence line and
the closing fence, keeping the body and its final newline. -/
theorem scanFenceAux_fenced (tagL body : List Char) (fuel : Nat)
    (hTag : ∀ c ∈ tagL, c.isAlpha = true) (hBody : hasTriple body = false)
    (hfuel : tagL.length + body.length + 8 ≤ fuel) :
    scanFenceAux fuel true
      (tick :: tick :: tick :: (tagL ++ '\n' :: (body ++ '\n' :: [tick, tick, tick]))) =
      body ++ ['\n'] := by
  obtain ⟨f, rfl⟩ : ∃ f, fuel = f + 1 := ⟨fuel - 1, by omega⟩
  have hskip := skipTag_alpha tagL (body ++ '\n' :: [tick, tick, tick]) hTag
  have htt : (tick == tick && tick == tick && tick == tick) = true := by decide
  have hlead : matchLead
      (tick :: tick :: tick :: (tagL ++ '\n' :: (body ++ '\n' :: [tick, tick, tick]))) =
      some (body ++ '\n' :: [tick, tick, tick]) := by
    simp only [matchLead, htt, if_true]
    exact hskip
  simp only [scanFenceAux, if_true, hlead]
  exact scanFenceAux_body body f true (by omega) hBody

theorem strData_append (a b : String) : (a ++ b).data = a.data ++ b.data := rfl

theorem strMk_data (s : String) : (⟨s.data⟩ : String) = s := rfl

/-- C1 (amended): the fence stripping of `get_ai_generated_code`
removes exactly one leading and one trailing fenced-code marker when
the completion is a single fenced block whose opening tag consists of
ASCII letters only and is followed directly by a line break, and whose
body contains no fence marker; text containing no fence marker is
returned unchanged.  (It is NOT tag-independent: a tag with a
non-letter character, e.g. `python3`, defeats the leading-fence
alternative — see the counterexample — and fence markers elsewhere at
line boundaries are removed as well.) -/
theorem C1_fence_stripping_amended (tag body other : String)
    (hTag : ∀ c ∈ tag.data, c.isAlpha = true)
    (hBody : hasTriple body.data = false)
    (hOther : hasTriple other.data = false) :
    stripFences ("```" ++ tag ++ "\n" ++ body ++ "\n```") = body ++ "\n" ∧
    stripFences other = other := by
  constructor
  · have h1 : ("```" : String).data = [tick, tick, tick] := by decide
    have h2 : ("\n" : String).data = ['\n'] := by decide
    have h3 : ("\n```" : String).data = '\n' :: [tick, tick, tick] := by decide
    have hdata : ("```" ++ tag ++ "\n" ++ body ++ "\n```").data =
        tick :: tick :: tick :: (tag.data ++ '\n' :: (body.data ++ '\n' :: [tick, tick, tick])) := by
      rw [strData_append, strData_append, strData_append, strData_append, h1, h2, h3]
      simp only [List.append_assoc, List.cons_append, List.nil_append]
    have hfuel : tag.data.length + body.data.length + 8 ≤
        (tick :: tick :: tick ::
          (tag.data ++ '\n' :: (body.data ++ '\n' :: [tick, tick, tick]))).length := by
      simp only [List.length_cons, List.length_append]
      omega
    unfold stripFences
    rw [hdata, scanFenceAux_fenced tag.data body.data _ hTag hBody hfuel]
    have hbn : (body ++ "\n").data = body.data ++ ['\n'] := by
      rw [strData_append, h2]
    rw [← hbn]
  · unfold stripFences
    rw [scanFenceAux_noTriple other.data other.data.length true le_rfl hOther]

/-- C1 counterexample: on the well-formed 200 response whose completion
is a fenced block with the language tag `python3`, the claim as stated
(tag-independent stripping of the leading marker) demands that both
fence markers be removed, but `get_ai_generated_code` leaves the
leading fence in place — the regex alternative `^```[a-zA-Z]*\n`
does not match a tag containing a digit — and removes only the trailing
one. -/
theorem C1_counterexample :
    get_ai_generated_code (.response 200 ⟨true, "```python3\ncode\n```", none⟩) =
      "```python3\ncode\n" ∧
    listStartsWith ("```" : String).data ("```python3\ncode\n" : String).data = true := by
  constructor <;> decide

/-- C1 witness: a `python`-tagged fenced block is stripped to its body,
and fence-free text is untouched. -/
theorem C1_witness :
    stripFences ("```" ++ "python" ++ "\n" ++ "code" ++ "\n```") = "code" ++ "\n" ∧
    stripFences "hello world" = "hello world" :=
  C1_fence_stripping_amended "python" "code" "hello world" (by decide) (by decide) (by decide)

end BlendAI
